import Mathlib

/-!
Shallow embedding of `src/run_linter.py`, a one-function command-line
utility that POSTs a Pine-Script source text to a remote linting endpoint
and prints the JSON diagnostics the service returns.

The Python function `lint_pine_script` is embedded as a pure Lean function
parametrised by its two external collaborators:
  * the HTTP transport (`requests.post` together with the network), modelled
    as a function from the constructed request to a `TransportResult`;
  * the JSON decoder (`response.json()` from the `requests`/`json`
    libraries), modelled as a function `String → Except String Json`.
Observable effects are made explicit in the result record: the returned
value (`Optional[Dict]` in Python, `Option Json` here), the lines printed
to the error channel (each tagged with the failure kind of the branch that
printed it), and the list of network requests issued.
-/

/-- JSON values, the shape of what `response.json()` can return. -/
inductive Json where
  | null : Json
  | bool (b : Bool) : Json
  | num (n : Int) : Json
  | str (s : String) : Json
  | arr (xs : List Json) : Json
  | obj (kvs : List (String × Json)) : Json

/-- A Python value passed as the `script_content` argument: either an actual
string, or any non-string object (the code only inspects `isinstance(·, str)`,
so non-strings need no further structure; a description tag is kept). -/
inductive PyValue where
  | str (s : String) : PyValue
  | nonStr (descr : String) : PyValue

/-- The outbound request constructed by `lint_pine_script` (url, headers,
form-encoded data fields, timeout in seconds), `run_linter.py` lines 19-30. -/
structure HttpRequest where
  url : String
  headers : List (String × String)
  data : List (String × String)
  timeout : Nat
deriving DecidableEq

/-- A response delivered by the transport: status code, response headers and
the body text (`response.text`). -/
structure HttpResponse where
  status_code : Nat
  headers : List (String × String)
  text : String

/-- What `requests.post` can do: deliver a response, raise a
`requests.exceptions.RequestException` (connection error, timeout, DNS
failure, ...), or raise any other unexpected exception. -/
inductive TransportResult where
  | response (r : HttpResponse) : TransportResult
  | requestException (msg : String) : TransportResult
  | otherException (msg : String) : TransportResult

/-- The failure taxonomy of the spec; each data constructor corresponds to
exactly one `print(..., file=sys.stderr)` site in `run_linter.py`. -/
inductive DiagKind where
  | InvalidInput : DiagKind
  | TransportError : DiagKind
  | HttpStatusError : DiagKind
  | UnexpectedContentType : DiagKind
  | MalformedResponse : DiagKind
  | UnknownError : DiagKind
deriving DecidableEq

/-- One line on the error channel: the text that is printed, tagged with the
kind of the branch that printed it. -/
structure Diagnostic where
  kind : DiagKind
  message : String
deriving DecidableEq

/-- Everything observable about one call of `lint_pine_script`: the returned
value, the error-channel lines, and the network requests issued. -/
structure LintOutput where
  result : Option Json
  stderr : List Diagnostic
  requests : List HttpRequest

/-- `run_linter.py` line 7. -/
def LINT_URL : String :=
  "https://pine-facade.tradingview.com/pine-facade/translate_light?user_name=Guest&v=3"

/-- `run_linter.py` line 8. -/
def DEFAULT_USER_AGENT : String :=
  "Mozilla/5.0 (Windows NT 10.0; Win64; x64) AppleWebKit/537.36 (KHTML, like Gecko) Chrome/120.0.0.0 Safari/537.36 PineLinterMini/1.0"

/-- Python whitespace as stripped by `str.strip()` (the ASCII part; Python
also strips the Unicode space characters, which no claim exercises). -/
def pyIsSpace (c : Char) : Bool :=
  c = ' ' || c = '\t' || c = '\n' || c = '\r' || c.toNat = 11 || c.toNat = 12

/-- Python `s.strip()`: remove leading and trailing whitespace. -/
def pyStrip (s : String) : String :=
  String.mk (((s.toList.dropWhile pyIsSpace).reverse.dropWhile pyIsSpace).reverse)

/-- Python `s[:n]`: the first `n` characters of `s`. -/
def strTake (s : String) (n : Nat) : String :=
  String.mk (s.toList.take n)

/-- Does `pat` occur as a prefix of some suffix of the haystack? -/
def containsAux (pat : List Char) : List Char → Bool
  | [] => List.isPrefixOf pat []
  | c :: rest => List.isPrefixOf pat (c :: rest) || containsAux pat rest

/-- Substring test: Python `pat in s` on strings. -/
def strContains (s pat : String) : Bool :=
  containsAux pat.toList s.toList

/-- ASCII-lowercase a string (header names are ASCII). -/
def lowerStr (s : String) : String :=
  String.mk (s.toList.map Char.toLower)

/-- `response.headers.get(key)`: lookup in the response-header mapping
(`requests` stores response headers case-insensitively), `None` when absent. -/
def headerGet? (hs : List (String × String)) (key : String) : Option String :=
  (hs.find? fun kv => lowerStr kv.1 == lowerStr key).map Prod.snd

/-- `response.headers.get(key, dflt)`: same with a default. -/
def headerGetD (hs : List (String × String)) (key dflt : String) : String :=
  (headerGet? hs key).getD dflt

/-- How Python prints `headers.get(key)` inside an f-string: the header
value itself, or the text `None` when the header is absent
(`run_linter.py` line 37 uses `.get` without a default). -/
def ctDisplay : Option String → String
  | some ct => ct
  | none => "None"

/-- The header dict built at `run_linter.py` lines 19-25. -/
def lintHeaders (user_agent : String) : List (String × String) :=
  [("User-Agent", user_agent),
   ("Content-Type", "application/x-www-form-urlencoded;charset=UTF-8"),
   ("Accept", "application/json, text/plain, */*"),
   ("Origin", "https://www.tradingview.com"),
   ("Referer", "https://www.tradingview.com/")]

/-- The request handed to `requests.post` at lines 29-30: fixed URL, the
header dict, one form field `source` carrying the script text, timeout 20. -/
def mkRequest (script_content user_agent : String) : HttpRequest :=
  { url := LINT_URL
    headers := lintHeaders user_agent
    data := [("source", script_content)]
    timeout := 20 }

/-- The exceptions that can surface inside the `try` block of
`lint_pine_script` and reach its `except` clauses. -/
inductive PyExn where
  | httpError (status_code : Nat) (text : String) : PyExn
  | jsonDecodeError (msg : String) (text : String) : PyExn
  | requestException (msg : String) : PyExn
  | otherException (msg : String) : PyExn

/-- Normal outcomes of the `try` block: a decoded JSON value (line 34), or
the in-`try` unexpected-content-type branch (lines 35-38). -/
inductive TryOutcome where
  | jsonValue (v : Json) : TryOutcome
  | badContentType (declared : Option String) (text : String) : TryOutcome

/-- The `try` block of `lint_pine_script` (lines 28-38): issue the POST,
`raise_for_status` (raises `HTTPError` exactly when `400 ≤ status < 600`,
per `requests`), test whether `application/json` occurs in the declared
`Content-Type`, and decode the body with `response.json()` (which raises
`requests.exceptions.JSONDecodeError` on undecodable bodies). -/
def tryBlock (transport : HttpRequest → TransportResult)
    (jsonParse : String → Except String Json) (req : HttpRequest) :
    Except PyExn TryOutcome :=
  match transport req with
  | .requestException m => .error (.requestException m)
  | .otherException m => .error (.otherException m)
  | .response r =>
    if 400 ≤ r.status_code ∧ r.status_code < 600 then
      .error (.httpError r.status_code r.text)
    else if strContains (headerGetD r.headers "Content-Type" "") "application/json" then
      match jsonParse r.text with
      | .ok v => .ok (.jsonValue v)
      | .error e => .error (.jsonDecodeError e r.text)
    else
      .ok (.badContentType (headerGet? r.headers "Content-Type") r.text)

/-- `lint_pine_script` (`run_linter.py` lines 11-50).  The two input guards
(lines 12-17) return `None` with a diagnostic before any request is built;
otherwise the request is issued and the outcome of the `try` block is mapped
through the `except` clauses (lines 40-49), each of which prints one line to
the error channel and falls through to `return None` (line 50).  Message
texts are the exact f-strings of the source (`\x27` is the apostrophe). -/
def lint_pine_script (transport : HttpRequest → TransportResult)
    (jsonParse : String → Except String Json)
    (script_content : PyValue) (user_agent : String) : LintOutput :=
  match script_content with
  | .nonStr _ =>
      { result := none
        stderr := [⟨.InvalidInput, "Error: script_content must be a string."⟩]
        requests := [] }
  | .str s =>
    if pyStrip s = "" then
      { result := none
        stderr := [⟨.InvalidInput, "Error: script_content cannot be empty."⟩]
        requests := [] }
    else
      let req := mkRequest s user_agent
      match tryBlock transport jsonParse req with
      | .ok (.jsonValue v) =>
          { result := some v, stderr := [], requests := [req] }
      | .ok (.badContentType ct text) =>
          { result := none
            stderr := [⟨.UnexpectedContentType,
              "Error: Unexpected content type \x27" ++ ctDisplay ct ++
                "\x27. Response text: " ++ strTake text 200⟩]
            requests := [req] }
      | .error (.httpError code text) =>
          { result := none
            stderr := [⟨.HttpStatusError,
              "HTTP error during linting: " ++ toString code ++ " - " ++ strTake text 200⟩]
            requests := [req] }
      | .error (.jsonDecodeError e text) =>
          { result := none
            stderr := [⟨.MalformedResponse,
              "JSON decode error during linting: " ++ e ++ ". Response text: " ++ strTake text 200⟩]
            requests := [req] }
      | .error (.requestException m) =>
          { result := none
            stderr := [⟨.TransportError, "Request exception during linting: " ++ m⟩]
            requests := [req] }
      | .error (.otherException m) =>
          { result := none
            stderr := [⟨.UnknownError, "An unexpected error occurred: " ++ m⟩]
            requests := [req] }

/-- Python truthiness of a JSON value as returned by `response.json()`:
`None`, `False`, `0`, `""`, `[]` and the empty dict are falsy. The
`__main__` block tests `if lint_result:` on such a value. -/
def Json.isTruthy : Json → Bool
  | .null => false
  | .bool b => b
  | .num n => n != 0
  | .str s => s != ""
  | .arr xs => !xs.isEmpty
  | .obj kvs => !kvs.isEmpty

/-- One lowercase hexadecimal digit: `0`-`9` for nibbles below ten,
`a`-`f` (codes 97-102) for nibbles ten to fifteen. -/
def hexDigit (n : Nat) : Char :=
  if n < 10 then Char.ofNat (48 + n) else Char.ofNat (87 + n)

/-- A JSON `\uXXXX` escape for a code unit below `0x10000`. -/
def uEscape (n : Nat) : String :=
  "\\u" ++ String.mk
    [hexDigit (n / 4096 % 16), hexDigit (n / 256 % 16),
     hexDigit (n / 16 % 16), hexDigit (n % 16)]

/-- How `json.dumps` (default `ensure_ascii=True`) renders one character of
a string: `"` and `\` get a backslash escape, the named control escapes are
used where they exist, every other character outside `0x20`-`0x7e` becomes
`\uXXXX` (a surrogate pair above `0xffff`). -/
def escapeChar (c : Char) : String :=
  if c = '"' then "\\\""
  else if c = '\\' then "\\\\"
  else if c = '\n' then "\\n"
  else if c = '\t' then "\\t"
  else if c = '\r' then "\\r"
  else if c.toNat = 8 then "\\b"
  else if c.toNat = 12 then "\\f"
  else if c.toNat < 32 then uEscape c.toNat
  else if c.toNat < 127 then String.singleton c
  else if c.toNat < 65536 then uEscape c.toNat
  else
    uEscape (55296 + (c.toNat - 65536) / 1024) ++ uEscape (56320 + (c.toNat - 65536) % 1024)

/-- `json.dumps` rendering of a string literal. -/
def jsonQuote (s : String) : String :=
  "\"" ++ String.join (s.toList.map escapeChar) ++ "\""

/-- `n` spaces. -/
def spaces (n : Nat) : String :=
  String.mk (List.replicate n ' ')

mutual

/-- `json.dumps(v, indent=4)` at nesting depth `ind` spaces: scalars render
on one line; non-empty arrays and objects put each element on its own line,
indented four further spaces, with item separator `,` and key separator
`: ` (Python switches to these separators whenever `indent` is given).
`\x7b`/`\x7d` are the braces. -/
def dumpsV (ind : Nat) : Json → String
  | .null => "null"
  | .bool true => "true"
  | .bool false => "false"
  | .num n => toString n
  | .str s => jsonQuote s
  | .arr [] => "[]"
  | .arr (x :: xs) =>
      "[\n" ++ spaces (ind + 4) ++ dumpsV (ind + 4) x ++ dumpsArr (ind + 4) xs ++
        "\n" ++ spaces ind ++ "]"
  | .obj [] => "\x7b\x7d"
  | .obj (kv :: kvs) =>
      "\x7b\n" ++ spaces (ind + 4) ++ jsonQuote kv.1 ++ ": " ++ dumpsV (ind + 4) kv.2 ++
        dumpsObj (ind + 4) kvs ++ "\n" ++ spaces ind ++ "\x7d"

/-- Remaining array elements, each preceded by `,\n` and the indent. -/
def dumpsArr (ind : Nat) : List Json → String
  | [] => ""
  | x :: xs => ",\n" ++ spaces ind ++ dumpsV ind x ++ dumpsArr ind xs

/-- Remaining object members, each preceded by `,\n` and the indent. -/
def dumpsObj (ind : Nat) : List (String × Json) → String
  | [] => ""
  | kv :: kvs => ",\n" ++ spaces ind ++ jsonQuote kv.1 ++ ": " ++ dumpsV ind kv.2 ++ dumpsObj ind kvs

end

/-- `json.dumps(v, indent=4)` as printed at `run_linter.py` line 61. -/
def dumps4 (v : Json) : String :=
  dumpsV 0 v

/-- What the `__main__` block observably does once the script file has been
read successfully. -/
structure MainOutput where
  stdout : List String
  lintOut : LintOutput

/-- `run_linter.py` lines 59-61, after `script_content = f.read()` succeeded:
call `lint_pine_script` with the default user agent, then
`if lint_result: print(json.dumps(lint_result, indent=4))` — note the
Python truthiness test, not an is-`None` test. -/
def mainWithScript (transport : HttpRequest → TransportResult)
    (jsonParse : String → Except String Json) (script_content : String) : MainOutput :=
  let out := lint_pine_script transport jsonParse (.str script_content) DEFAULT_USER_AGENT
  match out.result with
  | some v => if v.isTruthy then { stdout := [dumps4 v], lintOut := out }
              else { stdout := [], lintOut := out }
  | none => { stdout := [], lintOut := out }

/-- Claim C1: if the transport returns HTTP 200 with a `Content-Type` header
indicating `application/json` and a body the JSON decoder accepts, then
`lint_pine_script` returns exactly the decoded value, unmodified, and prints
nothing to the error channel. -/
theorem C1_json_success (transport : HttpRequest → TransportResult)
    (jsonParse : String → Except String Json) (s ua : String)
    (r : HttpResponse) (v : Json)
    (hs : pyStrip s ≠ "")
    (ht : transport (mkRequest s ua) = .response r)
    (hcode : r.status_code = 200)
    (hct : strContains (headerGetD r.headers "Content-Type" "") "application/json" = true)
    (hjson : jsonParse r.text = .ok v) :
    (lint_pine_script transport jsonParse (.str s) ua).result = some v ∧
    (lint_pine_script transport jsonParse (.str s) ua).stderr = [] := by
  simp only [lint_pine_script, tryBlock, if_neg hs, ht, hcode, hct, hjson, if_true]
  norm_num

/-- Concrete instance of C1: the spec's own example transport (HTTP 200,
`Content-Type: application/json`, body decoding to the mapping
`result ↦ ok`). -/
def c1Transport : HttpRequest → TransportResult := fun _ =>
  .response { status_code := 200
              headers := [("Content-Type", "application/json")]
              text := "\x7b\"result\": \"ok\"\x7d" }

/-- A JSON decoder that accepts exactly the body used in the C1 instance. -/
def c1Parse : String → Except String Json := fun t =>
  if t = "\x7b\"result\": \"ok\"\x7d" then .ok (.obj [("result", .str "ok")])
  else .error "Expecting value: line 1 column 1 (char 0)"

/-- Witness for C1 at the spec's example input. -/
theorem C1_witness :
    (lint_pine_script c1Transport c1Parse (.str "strategy() => ...") DEFAULT_USER_AGENT).result
        = some (.obj [("result", .str "ok")]) ∧
    (lint_pine_script c1Transport c1Parse (.str "strategy() => ...") DEFAULT_USER_AGENT).stderr
        = [] :=
  C1_json_success c1Transport c1Parse "strategy() => ..." DEFAULT_USER_AGENT
    { status_code := 200
      headers := [("Content-Type", "application/json")]
      text := "\x7b\"result\": \"ok\"\x7d" }
    (.obj [("result", .str "ok")])
    (by decide) rfl rfl (by decide) rfl

/-- Claim C2: for every non-string input, and for every string input that is
empty or whitespace-only after stripping, `lint_pine_script` returns no
result, prints exactly one `InvalidInput` diagnostic, and issues no network
request. -/
theorem C2_invalid_input (transport : HttpRequest → TransportResult)
    (jsonParse : String → Except String Json) (v : PyValue) (ua : String)
    (h : (∃ d, v = PyValue.nonStr d) ∨ (∃ s, v = PyValue.str s ∧ pyStrip s = "")) :
    (lint_pine_script transport jsonParse v ua).result = none ∧
    (∃ m, (lint_pine_script transport jsonParse v ua).stderr = [⟨DiagKind.InvalidInput, m⟩]) ∧
    (lint_pine_script transport jsonParse v ua).requests = [] := by
  rcases h with ⟨d, rfl⟩ | ⟨s, rfl, hs⟩
  · exact ⟨rfl, ⟨_, rfl⟩, rfl⟩
  · refine ⟨?_, ⟨"Error: script_content cannot be empty.", ?_⟩, ?_⟩ <;>
      simp [lint_pine_script, hs]

/-- A transport marker for the C2 witness: it is never consulted, and if it
were, it would signal a connection failure. -/
def c2Transport : HttpRequest → TransportResult := fun _ =>
  .requestException "connection refused"

/-- A JSON decoder for the C2 witness (never consulted). -/
def c2Parse : String → Except String Json := fun _ =>
  .error "Expecting value: line 1 column 1 (char 0)"

/-- Witness for C2 at the whitespace-only string input. -/
theorem C2_witness :
    (lint_pine_script c2Transport c2Parse (.str "   ") "agent").result = none ∧
    (∃ m, (lint_pine_script c2Transport c2Parse (.str "   ") "agent").stderr
        = [⟨DiagKind.InvalidInput, m⟩]) ∧
    (lint_pine_script c2Transport c2Parse (.str "   ") "agent").requests = [] :=
  C2_invalid_input c2Transport c2Parse (.str "   ") "agent"
    (Or.inr ⟨"   ", rfl, by decide⟩)

/-- Claim C4: a response whose status code is in the range `raise_for_status`
raises for (the non-success range 400-599, e.g. 500) yields no result and
one `HttpStatusError` diagnostic whose message carries the status code and
the first 200 characters of the response body. -/
theorem C4_http_status (transport : HttpRequest → TransportResult)
    (jsonParse : String → Except String Json) (s ua : String) (r : HttpResponse)
    (hs : pyStrip s ≠ "")
    (ht : transport (mkRequest s ua) = .response r)
    (hcode : 400 ≤ r.status_code ∧ r.status_code < 600) :
    (lint_pine_script transport jsonParse (.str s) ua).result = none ∧
    (lint_pine_script transport jsonParse (.str s) ua).stderr
      = [⟨DiagKind.HttpStatusError,
          "HTTP error during linting: " ++ toString r.status_code ++ " - " ++
            strTake r.text 200⟩] ∧
    (lint_pine_script transport jsonParse (.str s) ua).requests = [mkRequest s ua] := by
  refine ⟨?_, ?_, ?_⟩ <;> simp [lint_pine_script, tryBlock, hs, ht, hcode.1, hcode.2]

/-- A transport for the C4 witness: the spec's HTTP 500 example. -/
def c4Transport : HttpRequest → TransportResult := fun _ =>
  .response { status_code := 500, headers := [], text := "server error details..." }

/-- A JSON decoder for the C4 witness (never consulted). -/
def c4Parse : String → Except String Json := fun _ =>
  .error "Expecting value: line 1 column 1 (char 0)"

/-- Witness for C4: HTTP 500 with body `server error details...` produces no
result and the `HttpStatusError` line carrying `500` and the body prefix. -/
theorem C4_witness :
    (lint_pine_script c4Transport c4Parse (.str "plot(close)") "agent").result = none ∧
    (lint_pine_script c4Transport c4Parse (.str "plot(close)") "agent").stderr
      = [⟨DiagKind.HttpStatusError,
          "HTTP error during linting: " ++ toString 500 ++ " - " ++
            strTake "server error details..." 200⟩] ∧
    (lint_pine_script c4Transport c4Parse (.str "plot(close)") "agent").requests
      = [mkRequest "plot(close)" "agent"] :=
  C4_http_status c4Transport c4Parse "plot(close)" "agent"
    { status_code := 500, headers := [], text := "server error details..." }
    (by decide) rfl (by decide)

/-- Claim C5: a response with a success status (outside the raising range
400-599) whose declared `Content-Type` does not contain `application/json`
yields no result and one `UnexpectedContentType` diagnostic whose message
carries the declared content type and the first 200 characters of the body. -/
theorem C5_content_type (transport : HttpRequest → TransportResult)
    (jsonParse : String → Except String Json) (s ua : String) (r : HttpResponse)
    (hs : pyStrip s ≠ "")
    (ht : transport (mkRequest s ua) = .response r)
    (hcode : ¬(400 ≤ r.status_code ∧ r.status_code < 600))
    (hct : strContains (headerGetD r.headers "Content-Type" "") "application/json" = false) :
    (lint_pine_script transport jsonParse (.str s) ua).result = none ∧
    (lint_pine_script transport jsonParse (.str s) ua).stderr
      = [⟨DiagKind.UnexpectedContentType,
          "Error: Unexpected content type \x27" ++
            ctDisplay (headerGet? r.headers "Content-Type") ++
            "\x27. Response text: " ++ strTake r.text 200⟩] ∧
    (lint_pine_script transport jsonParse (.str s) ua).requests = [mkRequest s ua] := by
  refine ⟨?_, ?_, ?_⟩ <;> simp [lint_pine_script, tryBlock, hs, ht, hcode, hct]

/-- A transport for the C5 witness: the spec's HTTP 200 `text/html` example. -/
def c5Transport : HttpRequest → TransportResult := fun _ =>
  .response { status_code := 200
              headers := [("Content-Type", "text/html")]
              text := "<html>...</html>" }

/-- A JSON decoder for the C5 witness (never consulted). -/
def c5Parse : String → Except String Json := fun _ =>
  .error "Expecting value: line 1 column 1 (char 0)"

/-- Witness for C5: HTTP 200 with `Content-Type: text/html` produces no
result and the `UnexpectedContentType` line naming `text/html`. -/
theorem C5_witness :
    (lint_pine_script c5Transport c5Parse (.str "plot(open)") "agent").result = none ∧
    (lint_pine_script c5Transport c5Parse (.str "plot(open)") "agent").stderr
      = [⟨DiagKind.UnexpectedContentType,
          "Error: Unexpected content type \x27" ++ ctDisplay (some "text/html") ++
            "\x27. Response text: " ++ strTake "<html>...</html>" 200⟩] ∧
    (lint_pine_script c5Transport c5Parse (.str "plot(open)") "agent").requests
      = [mkRequest "plot(open)" "agent"] :=
  C5_content_type c5Transport c5Parse "plot(open)" "agent"
    { status_code := 200
      headers := [("Content-Type", "text/html")]
      text := "<html>...</html>" }
    (by decide) rfl (by decide) (by decide)

/-- Claim C6: a response declared as JSON whose body the decoder rejects
yields no result and one `MalformedResponse` diagnostic whose message
carries the decode error and the first 200 characters of the body. -/
theorem C6_malformed (transport : HttpRequest → TransportResult)
    (jsonParse : String → Except String Json) (s ua : String) (r : HttpResponse)
    (e : String)
    (hs : pyStrip s ≠ "")
    (ht : transport (mkRequest s ua) = .response r)
    (hcode : ¬(400 ≤ r.status_code ∧ r.status_code < 600))
    (hct : strContains (headerGetD r.headers "Content-Type" "") "application/json" = true)
    (hjson : jsonParse r.text = .error e) :
    (lint_pine_script transport jsonParse (.str s) ua).result = none ∧
    (lint_pine_script transport jsonParse (.str s) ua).stderr
      = [⟨DiagKind.MalformedResponse,
          "JSON decode error during linting: " ++ e ++ ". Response text: " ++
            strTake r.text 200⟩] ∧
    (lint_pine_script transport jsonParse (.str s) ua).requests = [mkRequest s ua] := by
  refine ⟨?_, ?_, ?_⟩ <;> simp [lint_pine_script, tryBlock, hs, ht, hcode, hct, hjson]

/-- A transport for the C6 witness: the spec's declared-JSON example whose
body `not json` is not decodable. -/
def c6Transport : HttpRequest → TransportResult := fun _ =>
  .response { status_code := 200
              headers := [("Content-Type", "application/json")]
              text := "not json" }

/-- A JSON decoder for the C6 witness: rejects everything, with the
CPython decode-error text for `not json`. -/
def c6Parse : String → Except String Json := fun _ =>
  .error "Expecting value: line 1 column 1 (char 0)"

/-- Witness for C6: declared JSON but undecodable body produces no result
and the `MalformedResponse` line reporting the decode failure. -/
theorem C6_witness :
    (lint_pine_script c6Transport c6Parse (.str "plot(high)") "agent").result = none ∧
    (lint_pine_script c6Transport c6Parse (.str "plot(high)") "agent").stderr
      = [⟨DiagKind.MalformedResponse,
          "JSON decode error during linting: " ++
            "Expecting value: line 1 column 1 (char 0)" ++
            ". Response text: " ++ strTake "not json" 200⟩] ∧
    (lint_pine_script c6Transport c6Parse (.str "plot(high)") "agent").requests
      = [mkRequest "plot(high)" "agent"] :=
  C6_malformed c6Transport c6Parse "plot(high)" "agent"
    { status_code := 200
      headers := [("Content-Type", "application/json")]
      text := "not json" }
    "Expecting value: line 1 column 1 (char 0)"
    (by decide) rfl (by decide) (by decide) rfl

/-- Claim C7: when the transport fails to complete the request (connection
error, DNS failure, or elapse of the timeout — a `RequestException`), the
call returns no result and prints one `TransportError` diagnostic derived
from the transport exception; the abandoned request carried the fixed
timeout of 20 time-units. -/
theorem C7_transport (transport : HttpRequest → TransportResult)
    (jsonParse : String → Except String Json) (s ua m : String)
    (hs : pyStrip s ≠ "")
    (ht : transport (mkRequest s ua) = .requestException m) :
    (mkRequest s ua).timeout = 20 ∧
    (lint_pine_script transport jsonParse (.str s) ua).result = none ∧
    (lint_pine_script transport jsonParse (.str s) ua).stderr
      = [⟨DiagKind.TransportError, "Request exception during linting: " ++ m⟩] ∧
    (lint_pine_script transport jsonParse (.str s) ua).requests = [mkRequest s ua] := by
  refine ⟨rfl, ?_, ?_, ?_⟩ <;> simp [lint_pine_script, tryBlock, hs, ht]

/-- A transport for the C7 witness: the request times out. -/
def c7Transport : HttpRequest → TransportResult := fun _ =>
  .requestException "HTTPSConnectionPool: Read timed out. (read timeout=20)"

/-- A JSON decoder for the C7 witness (never consulted). -/
def c7Parse : String → Except String Json := fun _ =>
  .error "Expecting value: line 1 column 1 (char 0)"

/-- Witness for C7: a timed-out request is reported as a `TransportError`
and the constructed request carried timeout 20. -/
theorem C7_witness :
    (mkRequest "plot(low)" "agent").timeout = 20 ∧
    (lint_pine_script c7Transport c7Parse (.str "plot(low)") "agent").result = none ∧
    (lint_pine_script c7Transport c7Parse (.str "plot(low)") "agent").stderr
      = [⟨DiagKind.TransportError,
          "Request exception during linting: " ++
            "HTTPSConnectionPool: Read timed out. (read timeout=20)"⟩] ∧
    (lint_pine_script c7Transport c7Parse (.str "plot(low)") "agent").requests
      = [mkRequest "plot(low)" "agent"] :=
  C7_transport c7Transport c7Parse "plot(low)" "agent"
    "HTTPSConnectionPool: Read timed out. (read timeout=20)"
    (by decide) rfl

/-- Claim C8: for every input and every transport behaviour the call returns
(the embedding is a total function with no exception alternative in its
result type); whenever it produces no result it has printed exactly one
diagnostic, whenever it produces a result it has printed nothing, and an
unexpected (non-`RequestException`) failure is reported as `UnknownError`
with the underlying description. -/
theorem C8_no_propagation (transport : HttpRequest → TransportResult)
    (jsonParse : String → Except String Json) (v : PyValue) (ua : String) :
    ((lint_pine_script transport jsonParse v ua).result = none →
      ∃ d, (lint_pine_script transport jsonParse v ua).stderr = [d]) ∧
    (∀ j, (lint_pine_script transport jsonParse v ua).result = some j →
      (lint_pine_script transport jsonParse v ua).stderr = []) ∧
    (∀ s m, v = PyValue.str s → pyStrip s ≠ "" →
      transport (mkRequest s ua) = TransportResult.otherException m →
      (lint_pine_script transport jsonParse v ua).result = none ∧
      (lint_pine_script transport jsonParse v ua).stderr
        = [⟨DiagKind.UnknownError, "An unexpected error occurred: " ++ m⟩]) := by
  refine ⟨?_, ?_, ?_⟩
  · intro hres
    cases v with
    | nonStr d => exact ⟨_, rfl⟩
    | str s =>
      by_cases hstrip : pyStrip s = ""
      · exact ⟨⟨.InvalidInput, "Error: script_content cannot be empty."⟩,
          by simp [lint_pine_script, hstrip]⟩
      · rcases htb : tryBlock transport jsonParse (mkRequest s ua) with e | o
        · cases e with
          | httpError code text =>
              exact ⟨⟨.HttpStatusError,
                "HTTP error during linting: " ++ toString code ++ " - " ++
                  strTake text 200⟩,
                by simp [lint_pine_script, hstrip, htb]⟩
          | jsonDecodeError msg text =>
              exact ⟨⟨.MalformedResponse,
                "JSON decode error during linting: " ++ msg ++ ". Response text: " ++
                  strTake text 200⟩,
                by simp [lint_pine_script, hstrip, htb]⟩
          | requestException m =>
              exact ⟨⟨.TransportError, "Request exception during linting: " ++ m⟩,
                by simp [lint_pine_script, hstrip, htb]⟩
          | otherException m =>
              exact ⟨⟨.UnknownError, "An unexpected error occurred: " ++ m⟩,
                by simp [lint_pine_script, hstrip, htb]⟩
        · cases o with
          | jsonValue j =>
              exact absurd hres (by simp [lint_pine_script, hstrip, htb])
          | badContentType ct text =>
              exact ⟨⟨.UnexpectedContentType,
                "Error: Unexpected content type \x27" ++ ctDisplay ct ++
                  "\x27. Response text: " ++ strTake text 200⟩,
                by simp [lint_pine_script, hstrip, htb]⟩
  · intro j hj
    cases v with
    | nonStr d => simp [lint_pine_script] at hj
    | str s =>
      by_cases hstrip : pyStrip s = ""
      · simp [lint_pine_script, hstrip] at hj
      · rcases htb : tryBlock transport jsonParse (mkRequest s ua) with e | o
        · cases e <;> simp [lint_pine_script, hstrip, htb] at hj
        · cases o with
          | jsonValue j2 => simp [lint_pine_script, hstrip, htb]
          | badContentType ct text => simp [lint_pine_script, hstrip, htb] at hj
  · rintro s m rfl hs ht
    refine ⟨?_, ?_⟩ <;> simp [lint_pine_script, tryBlock, hs, ht]

/-- A transport for the C8 witness: an unexpected non-transport exception
surfaces inside the `try` block. -/
def c8Transport : HttpRequest → TransportResult := fun _ =>
  .otherException "maximum recursion depth exceeded"

/-- A JSON decoder for the C8 witness (never consulted). -/
def c8Parse : String → Except String Json := fun _ =>
  .error "Expecting value: line 1 column 1 (char 0)"

/-- Witness for C8: the unexpected failure is caught and reported as
`UnknownError`, and the call returns no result. -/
theorem C8_witness :
    (lint_pine_script c8Transport c8Parse (.str "plot(volume)") "agent").result = none ∧
    (lint_pine_script c8Transport c8Parse (.str "plot(volume)") "agent").stderr
      = [⟨DiagKind.UnknownError,
          "An unexpected error occurred: " ++ "maximum recursion depth exceeded"⟩] :=
  (C8_no_propagation c8Transport c8Parse (.str "plot(volume)") "agent").2.2
    "plot(volume)" "maximum recursion depth exceeded" rfl (by decide) rfl

/-- Two sequential calls of `lint_pine_script` on the same input: the module
holds no mutable state (its only globals are the two string constants), so
the second call is the same pure function applied to the same arguments. -/
def lintTwice (transport : HttpRequest → TransportResult)
    (jsonParse : String → Except String Json) (v : PyValue) (ua : String) :
    LintOutput × LintOutput :=
  (lint_pine_script transport jsonParse v ua, lint_pine_script transport jsonParse v ua)

/-- Claim C9: against a deterministic transport, calling `lint_pine_script`
twice with identical input yields identical outputs — there is no hidden
state a first call could mutate, so both calls are the same application. -/
theorem C9_idempotent (transport : HttpRequest → TransportResult)
    (jsonParse : String → Except String Json) (v : PyValue) (ua : String) :
    (lintTwice transport jsonParse v ua).1 = (lintTwice transport jsonParse v ua).2 :=
  rfl

/-- Claim C10: varying the identity argument changes only the `User-Agent`
header of the constructed request: URL, `Content-Type`, `Accept`, `Origin`
and `Referer` headers, the single-field form body carrying the full script
text, and the timeout are identical for any two identity values, and the
`User-Agent` header carries exactly the identity argument. -/
theorem C10_frame (ua1 ua2 s : String) :
    (mkRequest s ua1).url = (mkRequest s ua2).url ∧
    (mkRequest s ua1).data = [("source", s)] ∧
    (mkRequest s ua2).data = [("source", s)] ∧
    (mkRequest s ua1).timeout = (mkRequest s ua2).timeout ∧
    headerGet? (mkRequest s ua1).headers "Content-Type"
      = headerGet? (mkRequest s ua2).headers "Content-Type" ∧
    headerGet? (mkRequest s ua1).headers "Accept"
      = headerGet? (mkRequest s ua2).headers "Accept" ∧
    headerGet? (mkRequest s ua1).headers "Origin"
      = headerGet? (mkRequest s ua2).headers "Origin" ∧
    headerGet? (mkRequest s ua1).headers "Referer"
      = headerGet? (mkRequest s ua2).headers "Referer" ∧
    ((mkRequest s ua1).headers.filter fun kv => kv.1 != "User-Agent")
      = ((mkRequest s ua2).headers.filter fun kv => kv.1 != "User-Agent") ∧
    headerGet? (mkRequest s ua1).headers "User-Agent" = some ua1 ∧
    headerGet? (mkRequest s ua2).headers "User-Agent" = some ua2 := by
  refine ⟨rfl, rfl, rfl, rfl, ?_, ?_, ?_, ?_, rfl, ?_, ?_⟩ <;>
    simp [mkRequest, lintHeaders, headerGet?, lowerStr]

/-- A transport under which lint succeeds with the empty JSON object: HTTP
200, declared JSON, body the empty object. -/
def c3Transport : HttpRequest → TransportResult := fun _ =>
  .response { status_code := 200
              headers := [("Content-Type", "application/json")]
              text := "\x7b\x7d" }

/-- A JSON decoder accepting the empty-object body. -/
def c3Parse : String → Except String Json := fun t =>
  if t = "\x7b\x7d" then .ok (.obj [])
  else .error "Expecting value: line 1 column 1 (char 0)"

/-- Counterexample to C3 as stated: at this input the lint call succeeds
(it returns the empty mapping), yet the `__main__` block prints nothing to
standard output — `if lint_result:` tests Python truthiness, and the empty
dict is falsy. -/
theorem C3_counterexample :
    (lint_pine_script c3Transport c3Parse (.str "indicator()") DEFAULT_USER_AGENT).result
        = some (.obj []) ∧
    (mainWithScript c3Transport c3Parse "indicator()").stdout = [] ∧
    (mainWithScript c3Transport c3Parse "indicator()").stdout ≠ [dumps4 (.obj [])] :=
  ⟨rfl, rfl, fun h => List.noConfusion h⟩

/-- Claim C3 amended: when the lint call succeeds with a truthy value (for
a mapping: a non-empty one) the result is printed to standard output as
`json.dumps(·, indent=4)`; when it succeeds with a falsy value (such as the
empty mapping), and likewise when it fails, nothing is printed to standard
output. -/
theorem C3_stdout_amended (transport : HttpRequest → TransportResult)
    (jsonParse : String → Except String Json) (s : String) :
    (∀ v, (lint_pine_script transport jsonParse (.str s) DEFAULT_USER_AGENT).result = some v →
      v.isTruthy = true →
      (mainWithScript transport jsonParse s).stdout = [dumps4 v]) ∧
    (∀ v, (lint_pine_script transport jsonParse (.str s) DEFAULT_USER_AGENT).result = some v →
      v.isTruthy = false →
      (mainWithScript transport jsonParse s).stdout = []) ∧
    ((lint_pine_script transport jsonParse (.str s) DEFAULT_USER_AGENT).result = none →
      (mainWithScript transport jsonParse s).stdout = []) := by
  refine ⟨?_, ?_, ?_⟩
  · intro v hv htr
    simp [mainWithScript, hv, htr]
  · intro v hv htr
    simp [mainWithScript, hv, htr]
  · intro hv
    simp [mainWithScript, hv]

/-- A transport under which lint succeeds with a non-empty mapping. -/
def c3TruthyTransport : HttpRequest → TransportResult := fun _ =>
  .response { status_code := 200
              headers := [("Content-Type", "application/json")]
              text := "\x7b\"result\": \"success\"\x7d" }

/-- A JSON decoder accepting that non-empty-mapping body. -/
def c3TruthyParse : String → Except String Json := fun t =>
  if t = "\x7b\"result\": \"success\"\x7d" then .ok (.obj [("result", .str "success")])
  else .error "Expecting value: line 1 column 1 (char 0)"

/-- Witness for the amended C3: a successful, truthy lint result is printed
to standard output pretty-printed with 4-space indentation. -/
theorem C3_amended_witness :
    (mainWithScript c3TruthyTransport c3TruthyParse "plot(hl2)").stdout
      = [dumps4 (.obj [("result", .str "success")])] :=
  (C3_stdout_amended c3TruthyTransport c3TruthyParse "plot(hl2)").1
    (.obj [("result", .str "success")]) rfl rfl
